import Mathlib

/-!
Verification of the segment-combination logic of `src/edicionvoz.py`
(the "Audio Analysis Combiner" app): the `AudioCombiner` class
(`load_and_transcribe`, `combine_segments`) and the session-state
management in `main` (segment add/remove, the combine button branch).

Audio waveforms are embedded as lists of per-millisecond sample frames;
times entered by the user are embedded as exact rationals.  The external
decode/slice/encode collaborators (pydub) are modelled at the boundary
the spec documents for them.
-/

namespace EdicionVoz

/-- An in-memory decoded audio waveform: the sequence of its
per-millisecond sample frames, each frame's byte content abstracted as a
natural number.  Embeds pydub's `AudioSegment` data. -/
abbrev Waveform := List Nat

/-- The empty waveform `AudioSegment.empty()` (src/edicionvoz.py line 53). -/
def emptyWaveform : Waveform := []

/-- A segment descriptor exactly as built by the "Add Segment" handler
(src/edicionvoz.py lines 131-136):
`{'source': source, 'text': text, 'start': start_time, 'end': end_time}`.
The two time fields are embedded as exact rationals. -/
structure SegmentDescriptor where
  source : String
  text : String
  start : ℚ
  «end» : ℚ
deriving DecidableEq

/-- Python's `int()` applied to the exact rational value of its argument:
truncation toward zero. -/
def pyInt (q : ℚ) : ℤ := if 0 ≤ q then ⌊q⌋ else ⌈q⌉

/-- The conversion `start_ms = int(segment['start'] * 1000)`
(src/edicionvoz.py line 56). -/
def startMs (s : SegmentDescriptor) : ℤ := pyInt (s.start * 1000)

/-- The conversion `end_ms = int(segment['end'] * 1000)`
(src/edicionvoz.py line 57). -/
def endMs (s : SegmentDescriptor) : ℤ := pyInt (s.«end» * 1000)

/-- Modelled from the spec: the slicing primitive
`slice(waveform, startMs, endMs)` is an external collaborator (pydub's
`AudioSegment.__getitem__`, not code under src/).  The spec documents its
boundary policy as clamp-to-end; positions are first clamped to the clip
length and a negative position counts from the end, as in Python slicing. -/
def sliceMs (w : Waveform) (a b : ℤ) : Waveform :=
  let n : ℤ := w.length
  let s := min a n
  let e := min b n
  let s' := if s < 0 then n + s else s
  let e' := if e < 0 then n + e else e
  (w.drop s'.toNat).take (e'.toNat - s'.toNat)

/-- The source lookup
`source_audio = audio1 if segment['source'] == 'audio1' else audio2`
(src/edicionvoz.py line 55): every tag other than `'audio1'` selects the
second clip. -/
def sourceAudio (audio1 audio2 : Waveform) (s : SegmentDescriptor) : Waveform :=
  if s.source = "audio1" then audio1 else audio2

/-- One iteration of the combine loop (src/edicionvoz.py lines 54-59):
slice the descriptor's source clip and append the slice to the
accumulating output (`combined += audio_segment`). -/
def combineStep (audio1 audio2 : Waveform) (combined : Waveform)
    (s : SegmentDescriptor) : Waveform :=
  combined ++ sliceMs (sourceAudio audio1 audio2 s) (startMs s) (endMs s)

/-- The core of `AudioCombiner.combine_segments` (src/edicionvoz.py lines
53-59): start from `AudioSegment.empty()` and fold the loop body over the
descriptor list in order. -/
def combineSegments (audio1 audio2 : Waveform)
    (segs : List SegmentDescriptor) : Waveform :=
  segs.foldl (combineStep audio1 audio2) emptyWaveform

/-- Modelled from the spec: `encode(waveform, "wav")` is an external
collaborator; embedded as a deterministic injective byte encoding
(length header followed by the frames). -/
def encodeWav (w : Waveform) : List Nat := w.length :: w

/-- The per-session state of `main` (src/edicionvoz.py lines 77-80):
`st.session_state.transcriptions` (slots `'audio1'` and `'audio2'`) and
`st.session_state.segments`. -/
structure SessionState where
  transcription1 : Option String
  transcription2 : Option String
  segments : List SegmentDescriptor
deriving DecidableEq

/-- The "Add Segment" button handler (src/edicionvoz.py lines 130-138):
`st.session_state.segments.append(new_segment)` — an unconditional append;
no range check is performed here (the end-time widget at lines 125-128
uses `min_value=start_time` upstream). -/
def addSegment (st : SessionState) (d : SegmentDescriptor) : SessionState :=
  { st with segments := st.segments ++ [d] }

/-- Python's `list.pop(i)` as invoked by the "Remove" button handler
(src/edicionvoz.py line 151).  A negative index counts from the end of
the list; `none` stands for the `IndexError` raised when the index is out
of range, in which case the list is left untouched. -/
def pyPop (l : List SegmentDescriptor) (i : ℤ) : Option (List SegmentDescriptor) :=
  let n : ℤ := l.length
  let j := if i < 0 then n + i else i
  if 0 ≤ j ∧ j < n then some (l.take j.toNat ++ l.drop (j.toNat + 1)) else none

/-- The "Combine Selected Segments" branch of `main` (src/edicionvoz.py
lines 155-179): if both uploaded files are present, run
`combine_segments` and expose the encoded bytes; otherwise show the fixed
error `"Please upload both audio files first!"` and do nothing.  The
second component counts the slice operations the branch executes (one per
descriptor on the success path, zero on the error path). -/
def requestCombine (audio1File audio2File : Option Waveform)
    (segs : List SegmentDescriptor) : Except String (List Nat) × Nat :=
  match audio1File, audio2File with
  | some a1, some a2 => (Except.ok (encodeWav (combineSegments a1 a2 segs)), segs.length)
  | _, _ => (Except.error "Please upload both audio files first!", 0)

/-- The combine branch's effect on the session state (src/edicionvoz.py
lines 155-179): the branch reads `st.session_state.segments` but contains
no assignment to any session-state field, so the state passes through
unchanged alongside the result. -/
def combineAction (audio1File audio2File : Option Waveform) (st : SessionState) :
    SessionState × (Except String (List Nat) × Nat) :=
  (st, requestCombine audio1File audio2File st.segments)

/-- Outcomes of the external collaborators used inside
`load_and_transcribe` (src/edicionvoz.py lines 12-35): whether the
decode/re-export steps (lines 21-22, 25-26) succeed, whether
`recognize_google` (line 27) succeeds, and the text it would return. -/
structure TranscribeEnv where
  decodeOk : Bool
  recognizeOk : Bool
  text : String

/-- `AudioCombiner.load_and_transcribe` (src/edicionvoz.py lines 12-35).
Result: the transcription text (`none` after the except-branch at lines
33-35) paired with whether the temporary file created at line 15 with
`delete=False` still exists when the call returns.  `os.unlink` (line 30)
is reached only when decode and recognition both succeed; an exception
jumps straight to the handler, skipping it. -/
def loadAndTranscribe (env : TranscribeEnv) : Option String × Bool :=
  if env.decodeOk then
    if env.recognizeOk then (some env.text, false)
    else (none, true)
  else (none, true)

/-! Theorems -/

theorem foldl_combineStep (a1 a2 : Waveform) (segs : List SegmentDescriptor)
    (acc : Waveform) :
    segs.foldl (combineStep a1 a2) acc =
      acc ++ (segs.map fun s =>
        sliceMs (sourceAudio a1 a2 s) (startMs s) (endMs s)).flatten := by
  induction segs generalizing acc with
  | nil => simp
  | cons s t ih => simp [List.foldl_cons, combineStep, ih, List.append_assoc]

/-- C1: the output waveform of `combine_segments` equals the
concatenation, in exact descriptor-list order, of the slices
`slice(source_i, startMs_i, endMs_i)`, starting from the empty waveform;
the combiner neither reorders nor slices beyond what the list describes. -/
theorem combine_concat_of_slices (a1 a2 : Waveform)
    (segs : List SegmentDescriptor) :
    combineSegments a1 a2 segs =
      (segs.map fun s =>
        sliceMs (sourceAudio a1 a2 s) (startMs s) (endMs s)).flatten := by
  simpa [combineSegments, emptyWaveform] using foldl_combineStep a1 a2 segs []

/-- C2: combine is a deterministic, pure function of the two source clips
and the descriptor list — two invocations with identical inputs yield
byte-identical encoded output.  The embedding of `combine_segments` takes
no input other than the clips and the list (the temporary file paths the
code uses do not influence the produced bytes). -/
theorem combine_deterministic (a1 a2 : Waveform) (segs : List SegmentDescriptor) :
    requestCombine (some a1) (some a2) segs =
      requestCombine (some a1) (some a2) segs := rfl

/-- C3 counterexample: a descriptor with `end < start` (here start 1s,
end 0s) is appended by the "Add Segment" handler — the sequence changes
and no failure is reported, contradicting the claimed reject-as-no-op. -/
theorem addSegment_end_lt_start_cex :
    (⟨"audio1", "t", 1, 0⟩ : SegmentDescriptor).«end» <
      (⟨"audio1", "t", 1, 0⟩ : SegmentDescriptor).start ∧
    (addSegment ⟨none, none, []⟩ ⟨"audio1", "t", 1, 0⟩).segments ≠
      (⟨none, none, []⟩ : SessionState).segments := by
  refine ⟨by norm_num, by simp [addSegment]⟩

/-- C3 (amended): the "Add Segment" handler appends every given
descriptor unconditionally at the end of the sequence — in particular
every descriptor with `end >= start`; the `end < start` case is prevented
upstream by the end-time input widget (`min_value=start_time`), not
rejected by the handler itself. -/
theorem addSegment_appends (st : SessionState) (d : SegmentDescriptor) :
    (addSegment st d).segments = st.segments ++ [d] := rfl

/-- C4 counterexample: index `-1` lies outside `[0, length)`, yet
`list.pop(-1)` on a one-element segment list succeeds and empties the
list — the sequence is changed and no out-of-range error is raised. -/
theorem pyPop_neg_index_cex :
    pyPop [⟨"audio1", "t", 0, 1⟩] (-1) = some [] ∧
    pyPop [⟨"audio1", "t", 0, 1⟩] (-1) ≠ none := by
  refine ⟨by decide, by decide⟩

/-- C4 (amended): `list.pop(i)` raises an out-of-range `IndexError` and
leaves the sequence unchanged exactly when `i ≥ length` or `i < -length`;
for `0 ≤ i < length` it removes the element at `i`, the length decreases
by one and the later elements shift down with order preserved; a negative
in-range index `-length ≤ i < 0` removes the element at `length - |i|`,
counting from the end, in the Python convention. -/
theorem pyPop_spec :
    (∀ (l : List SegmentDescriptor) (i : ℤ),
      ((l.length : ℤ) ≤ i ∨ i < -(l.length : ℤ)) → pyPop l i = none) ∧
    (∀ (l : List SegmentDescriptor) (i : ℕ), i < l.length →
      pyPop l (i : ℤ) = some (l.eraseIdx i) ∧
      (l.eraseIdx i).length + 1 = l.length) ∧
    (∀ (l : List SegmentDescriptor) (i : ℤ), -(l.length : ℤ) ≤ i → i < 0 →
      pyPop l i = some (l.eraseIdx (l.length - i.natAbs))) := by
  refine ⟨?_, ?_, ?_⟩
  · intro l i h
    simp only [pyPop]
    split_ifs <;> first | rfl | (exfalso; omega)
  · intro l i h
    constructor
    · simp only [pyPop]
      split_ifs <;>
        first
        | (exfalso; omega)
        | simp [List.eraseIdx_eq_take_drop_succ]
    · rw [List.length_eraseIdx_add_one h]
  · intro l i h1 h2
    simp only [pyPop]
    split_ifs <;> first | (exfalso; omega) | skip
    rw [List.eraseIdx_eq_take_drop_succ]
    have ht : ((l.length : ℤ) + i).toNat = l.length - i.natAbs := by omega
    rw [ht]

/-- C4 witness: the amended removal contract at concrete inputs — index 5
on a two-element list errors out, index 0 removes the first element. -/
theorem pyPop_spec_witness :
    pyPop [⟨"audio1", "t", 0, 1⟩, ⟨"audio2", "u", 1, 2⟩] 5 = none ∧
    pyPop [⟨"audio1", "t", 0, 1⟩, ⟨"audio2", "u", 1, 2⟩] 0 =
      some [⟨"audio2", "u", 1, 2⟩] := by
  constructor
  · exact pyPop_spec.1 _ 5 (by decide)
  · have h := (pyPop_spec.2.1 [⟨"audio1", "t", 0, 1⟩, ⟨"audio2", "u", 1, 2⟩] 0
      (by decide)).1
    simpa using h

/-- C5 counterexample: the failure produced when a referenced slot holds
no clip is the same fixed string whichever slot is missing (here: second
slot missing with a descriptor naming `audio2`, versus first slot missing
with a descriptor naming `audio1`), so the error does not name the
missing slot as the claim requires. -/
theorem combine_error_not_slot_specific_cex :
    (requestCombine (some [1]) none [⟨"audio2", "t", 0, 1⟩]).1 =
      (requestCombine none (some [1]) [⟨"audio1", "t", 0, 1⟩]).1 ∧
    (requestCombine (some [1]) none [⟨"audio2", "t", 0, 1⟩]).1 =
      Except.error "Please upload both audio files first!" := ⟨rfl, rfl⟩

/-- C5 (amended): whenever some descriptor references a slot holding no
clip, combine fails with the generic error
`"Please upload both audio files first!"` (which does not identify the
slot), performs zero slice operations, and exposes no partial output. -/
theorem combine_missing_clip_fails_fast (a1 a2 : Option Waveform)
    (segs : List SegmentDescriptor)
    (h : ∃ s ∈ segs, (s.source = "audio1" ∧ a1 = none) ∨
        (s.source ≠ "audio1" ∧ a2 = none)) :
    requestCombine a1 a2 segs =
      (Except.error "Please upload both audio files first!", 0) := by
  obtain ⟨s, -, hcase⟩ := h
  match a1, a2 with
  | none, _ => cases a2 <;> rfl
  | some w1, none => rfl
  | some w1, some w2 =>
    rcases hcase with ⟨-, hn⟩ | ⟨-, hn⟩ <;> exact absurd hn (by simp)

/-- C5 witness: with the second clip missing and a descriptor naming
`audio2`, combine yields the generic error and zero slice operations. -/
theorem combine_missing_clip_fails_fast_witness :
    requestCombine (some [1]) none [⟨"audio2", "t", 0, 1⟩] =
      (Except.error "Please upload both audio files first!", 0) :=
  combine_missing_clip_fails_fast (some [1]) none [⟨"audio2", "t", 0, 1⟩]
    ⟨⟨"audio2", "t", 0, 1⟩, by simp, Or.inr ⟨by decide, rfl⟩⟩

/-- C6: for the non-negative times the input widgets admit
(`min_value=0.0`), `int(x * 1000)` truncates the exact value toward zero,
i.e. the millisecond values used by combine are the floors of
`startSeconds * 1000` and `endSeconds * 1000` — truncation, not rounding.
Times are embedded as exact rationals; double-precision rounding inside
the Python product is outside this embedding. -/
theorem ms_conversion_truncates (s : SegmentDescriptor)
    (h1 : 0 ≤ s.start) (h2 : 0 ≤ s.«end») :
    startMs s = ⌊s.start * 1000⌋ ∧ endMs s = ⌊s.«end» * 1000⌋ ∧
    ((startMs s : ℚ) ≤ s.start * 1000 ∧ s.start * 1000 < startMs s + 1) := by
  have hs : (0 : ℚ) ≤ s.start * 1000 := by positivity
  have he : (0 : ℚ) ≤ s.«end» * 1000 := by positivity
  have hst : startMs s = ⌊s.start * 1000⌋ := by
    simp [startMs, pyInt, hs]
  refine ⟨hst, by simp [endMs, pyInt, he], ?_, ?_⟩
  · rw [hst]; exact Int.floor_le _
  · rw [hst]; exact Int.lt_floor_add_one _

/-- C6 witness: a start time of 1.9995 s converts to 1999 ms (the floor),
not to the rounded 2000 ms. -/
theorem ms_conversion_truncates_witness :
    startMs ⟨"audio1", "x", 3999 / 2000, 3999 / 2000⟩ = 1999 := by
  have h := (ms_conversion_truncates ⟨"audio1", "x", 3999 / 2000, 3999 / 2000⟩
    (by norm_num) (by norm_num)).1
  rw [h]
  rw [show ((⟨"audio1", "x", 3999 / 2000, 3999 / 2000⟩ :
    SegmentDescriptor).start * 1000 : ℚ) = 3999 / 2000 * 1000 from rfl]
  rw [Int.floor_eq_iff]
  norm_num

/-- C7: combine on the empty descriptor list succeeds with the empty,
zero-duration output clip — not a failure. -/
theorem combine_empty_segments (a1 a2 : Waveform) :
    combineSegments a1 a2 [] = emptyWaveform ∧
    (combineSegments a1 a2 []).length = 0 ∧
    requestCombine (some a1) (some a2) [] =
      (Except.ok (encodeWav emptyWaveform), 0) := ⟨rfl, rfl, rfl⟩

/-- C8: a failed combine invocation does not corrupt the session state —
the transcripts and the segment list after the failure are identical to
what they were before it (the combine branch writes no session-state
field). -/
theorem failed_combine_preserves_state (a1 a2 : Option Waveform)
    (st : SessionState) (msg : String)
    (h : (combineAction a1 a2 st).2.1 = Except.error msg) :
    (combineAction a1 a2 st).1.transcription1 = st.transcription1 ∧
    (combineAction a1 a2 st).1.transcription2 = st.transcription2 ∧
    (combineAction a1 a2 st).1.segments = st.segments := ⟨rfl, rfl, rfl⟩

/-- C8 witness: a combine attempt with no uploaded files fails and leaves
a concrete session state (one transcript, one segment) intact. -/
theorem failed_combine_preserves_state_witness :
    (combineAction none none
      ⟨some "hola", none, [⟨"audio1", "t", 0, 1⟩]⟩).1.transcription1 =
        some "hola" ∧
    (combineAction none none
      ⟨some "hola", none, [⟨"audio1", "t", 0, 1⟩]⟩).1.transcription2 = none ∧
    (combineAction none none
      ⟨some "hola", none, [⟨"audio1", "t", 0, 1⟩]⟩).1.segments =
        [⟨"audio1", "t", 0, 1⟩] :=
  failed_combine_preserves_state none none
    ⟨some "hola", none, [⟨"audio1", "t", 0, 1⟩]⟩
    "Please upload both audio files first!" rfl

/-- C9: at the failing input where decode raises (corrupt upload),
`load_and_transcribe` returns the failure result with the `delete=False`
temporary file still existing — `os.unlink` (line 30) is skipped on the
exception path, so the claimed release-on-every-exit-path does not hold
in the code. -/
theorem transcribe_temp_leak :
    loadAndTranscribe ⟨false, true, "hola"⟩ = (none, true) := rfl

/-- C10: every descriptor whose source tag is not exactly `'audio1'` is
silently treated as referring to the second clip — the tag is never
validated, and combine slices the second clip for it. -/
theorem unknown_source_uses_audio2 (a1 a2 : Waveform) (s : SegmentDescriptor)
    (h : s.source ≠ "audio1") :
    sourceAudio a1 a2 s = a2 ∧
    combineSegments a1 a2 [s] = sliceMs a2 (startMs s) (endMs s) := by
  constructor
  · simp [sourceAudio, h]
  · simp [combineSegments, combineStep, emptyWaveform, sourceAudio, h]

/-- C10 witness: the misspelled tag `'first'` selects the second clip. -/
theorem unknown_source_uses_audio2_witness :
    sourceAudio [1, 2] [3, 4] ⟨"first", "t", 0, 1⟩ = [3, 4] :=
  (unknown_source_uses_audio2 [1, 2] [3, 4] ⟨"first", "t", 0, 1⟩ (by decide)).1

end EdicionVoz
